import Mathlib

/-!
Verification of the safe binding layer in `sense-voice-cpp-rs/src/lib.rs`
(crate `ggml-aio-rs`): call-configuration construction, marshalling into
the native request shape, the invocation guard and return-code mapping,
and the lifecycle of the owned native handle.

Rust machine integers are embedded as `Int` with explicit wrapping where
a cast can overflow; strings crossing the C boundary are embedded as
byte sequences (`List Nat`), since the only operation the code performs
on them is the interior-NUL check of `CString::new`.  The heap side of
`CString` values is embedded by an allocation-identifier state so that
the lifetime of the transient language buffer can be tracked across
`to_c_struct` and the native call.
-/

/-- `enum SenseVoiceDecodingStrategy { SamplingGreedy, SamplingBeamSearch }`. -/
inductive SenseVoiceDecodingStrategy
  | SamplingGreedy
  | SamplingBeamSearch
deriving DecidableEq

/-- Rust `self.strategy as u32`: the default discriminants of the
field-less enum, `SamplingGreedy = 0`, `SamplingBeamSearch = 1`. -/
def SenseVoiceDecodingStrategy.toU32 : SenseVoiceDecodingStrategy → Nat
  | .SamplingGreedy => 0
  | .SamplingBeamSearch => 1

/-- `struct GreedyParams { best_of: i32 }` (also the shape of the
bindgen anonymous struct `sense_voice_full_params__bindgen_ty_1`). -/
structure GreedyParams where
  best_of : Int
deriving DecidableEq

/-- `struct BeamSearchParams { beam_size: i32 }` (also the shape of the
bindgen anonymous struct `sense_voice_full_params__bindgen_ty_2`). -/
structure BeamSearchParams where
  beam_size : Int
deriving DecidableEq

/-- `struct SenseVoiceFullParams` exactly as declared in the source.
`language` is the Rust `String` embedded as its UTF-8 byte sequence. -/
structure SenseVoiceFullParams where
  strategy : SenseVoiceDecodingStrategy
  n_threads : Int
  language : List Nat
  n_max_text_ctx : Int
  offset_ms : Int
  duration_ms : Int
  no_timestamps : Bool
  single_segment : Bool
  print_progress : Bool
  print_timestamps : Bool
  debug_mode : Bool
  audio_ctx : Int
  greedy : GreedyParams
  beam_search : BeamSearchParams
deriving DecidableEq

/-- The UTF-8 bytes of the default language string `"auto"`. -/
def autoLanguageBytes : List Nat := [97, 117, 116, 111]

/-- Rust `usize as i32`: truncate to the low 32 bits and reinterpret as
two's-complement signed. -/
def usizeToI32 (n : Nat) : Int :=
  let m : Nat := n % 2 ^ 32
  if m < 2 ^ 31 then (m : Int) else (m : Int) - 2 ^ 32

/-- `struct SenseVoiceFullParamsBuilder { params: SenseVoiceFullParams }`. -/
structure SenseVoiceFullParamsBuilder where
  params : SenseVoiceFullParams

/-- `SenseVoiceFullParamsBuilder::new(strategy)`.  The call
`thread::available_parallelism()` is a runtime probe, so it is passed in
as `par` (`some n` when detection succeeds with `NonZeroUsize` value `n`,
`none` when it fails); `map_or(4, |n| n.get() as i32)` becomes the match
below.  After the field-by-field initialisation the strategy-specific
default overwrites the `-1` sentinel of the selected strategy's
sub-parameter, exactly as in the source. -/
def SenseVoiceFullParamsBuilder.new (strategy : SenseVoiceDecodingStrategy)
    (par : Option Nat) : SenseVoiceFullParamsBuilder :=
  let params : SenseVoiceFullParams :=
    { strategy := strategy
      n_threads := min 4 (match par with
        | none => 4
        | some n => usizeToI32 n)
      language := autoLanguageBytes
      n_max_text_ctx := 16384
      offset_ms := 0
      duration_ms := 0
      no_timestamps := false
      single_segment := true
      print_progress := true
      print_timestamps := true
      debug_mode := false
      audio_ctx := 0
      greedy := { best_of := -1 }
      beam_search := { beam_size := -1 } }
  let params :=
    match strategy with
    | .SamplingGreedy => { params with greedy := { best_of := 5 } }
    | .SamplingBeamSearch => { params with beam_search := { beam_size := 5 } }
  { params := params }

/-- Builder setter `n_threads`. -/
def SenseVoiceFullParamsBuilder.n_threads (b : SenseVoiceFullParamsBuilder)
    (v : Int) : SenseVoiceFullParamsBuilder :=
  { params := { b.params with n_threads := v } }

/-- Builder setter `language` (`language.to_string()` keeps the bytes). -/
def SenseVoiceFullParamsBuilder.language (b : SenseVoiceFullParamsBuilder)
    (v : List Nat) : SenseVoiceFullParamsBuilder :=
  { params := { b.params with language := v } }

/-- Builder setter `n_max_text_ctx`. -/
def SenseVoiceFullParamsBuilder.n_max_text_ctx (b : SenseVoiceFullParamsBuilder)
    (v : Int) : SenseVoiceFullParamsBuilder :=
  { params := { b.params with n_max_text_ctx := v } }

/-- Builder setter `offset_ms`. -/
def SenseVoiceFullParamsBuilder.offset_ms (b : SenseVoiceFullParamsBuilder)
    (v : Int) : SenseVoiceFullParamsBuilder :=
  { params := { b.params with offset_ms := v } }

/-- Builder setter `duration_ms`. -/
def SenseVoiceFullParamsBuilder.duration_ms (b : SenseVoiceFullParamsBuilder)
    (v : Int) : SenseVoiceFullParamsBuilder :=
  { params := { b.params with duration_ms := v } }

/-- Builder setter `no_timestamps`. -/
def SenseVoiceFullParamsBuilder.no_timestamps (b : SenseVoiceFullParamsBuilder)
    (v : Bool) : SenseVoiceFullParamsBuilder :=
  { params := { b.params with no_timestamps := v } }

/-- Builder setter `single_segment`. -/
def SenseVoiceFullParamsBuilder.single_segment (b : SenseVoiceFullParamsBuilder)
    (v : Bool) : SenseVoiceFullParamsBuilder :=
  { params := { b.params with single_segment := v } }

/-- Builder setter `print_progress`. -/
def SenseVoiceFullParamsBuilder.print_progress (b : SenseVoiceFullParamsBuilder)
    (v : Bool) : SenseVoiceFullParamsBuilder :=
  { params := { b.params with print_progress := v } }

/-- Builder setter `print_timestamps`. -/
def SenseVoiceFullParamsBuilder.print_timestamps (b : SenseVoiceFullParamsBuilder)
    (v : Bool) : SenseVoiceFullParamsBuilder :=
  { params := { b.params with print_timestamps := v } }

/-- Builder setter `debug_mode`. -/
def SenseVoiceFullParamsBuilder.debug_mode (b : SenseVoiceFullParamsBuilder)
    (v : Bool) : SenseVoiceFullParamsBuilder :=
  { params := { b.params with debug_mode := v } }

/-- Builder setter `audio_ctx`. -/
def SenseVoiceFullParamsBuilder.audio_ctx (b : SenseVoiceFullParamsBuilder)
    (v : Int) : SenseVoiceFullParamsBuilder :=
  { params := { b.params with audio_ctx := v } }

/-- Builder setter `greedy_best_of`. -/
def SenseVoiceFullParamsBuilder.greedy_best_of (b : SenseVoiceFullParamsBuilder)
    (v : Int) : SenseVoiceFullParamsBuilder :=
  { params := { b.params with greedy := { best_of := v } } }

/-- Builder setter `beam_search_beam_size`. -/
def SenseVoiceFullParamsBuilder.beam_search_beam_size (b : SenseVoiceFullParamsBuilder)
    (v : Int) : SenseVoiceFullParamsBuilder :=
  { params := { b.params with beam_search := { beam_size := v } } }

/-- `SenseVoiceFullParamsBuilder::build(self)`. -/
def SenseVoiceFullParamsBuilder.build (b : SenseVoiceFullParamsBuilder) :
    SenseVoiceFullParams :=
  b.params

/-- `SenseVoiceFullParams::default_params(strategy)`, with the detected
parallelism threaded through as in `SenseVoiceFullParamsBuilder.new`. -/
def SenseVoiceFullParams.default_params (strategy : SenseVoiceDecodingStrategy)
    (par : Option Nat) : SenseVoiceFullParams :=
  (SenseVoiceFullParamsBuilder.new strategy par).build

/-- Heap state for `CString` buffers: a fresh-identifier counter and the
identifiers of buffers currently alive.  A pointer into a buffer is
embedded as that buffer's identifier. -/
structure AllocState where
  next : Nat
  live : List Nat
deriving DecidableEq

/-- Allocate a fresh `CString` buffer; returns its identifier. -/
def AllocState.alloc (s : AllocState) : Nat × AllocState :=
  (s.next, { next := s.next + 1, live := s.next :: s.live })

/-- Drop a `CString`: its buffer identifier stops being alive. -/
def AllocState.dropId (s : AllocState) (id : Nat) : AllocState :=
  { next := s.next, live := s.live.erase id }

/-- The heap state at program start: nothing allocated. -/
def AllocState.initState : AllocState := { next := 0, live := [] }

/-- Outcome of a Rust computation that can panic (`expect` on an `Err`). -/
inductive RustOutcome (α : Type)
  | panicked (msg : String)
  | value (a : α)
deriving DecidableEq

/-- The native `struct sense_voice_full_params` exactly as the source
fills it in `to_c_struct`.  `language` is a borrowed `*const c_char`,
embedded as the identifier of the `CString` buffer it points into;
`progress_callback` is an `Option` of a function pointer and
`progress_callback_user_data` a possibly-null raw pointer. -/
structure CFullParams where
  strategy : Nat
  n_threads : Int
  language : Nat
  n_max_text_ctx : Int
  offset_ms : Int
  duration_ms : Int
  no_timestamps : Bool
  single_segment : Bool
  print_progress : Bool
  print_timestamps : Bool
  debug_mode : Bool
  audio_ctx : Int
  greedy : GreedyParams
  beam_search : BeamSearchParams
  progress_callback : Option Unit
  progress_callback_user_data : Option Nat
deriving DecidableEq

/-- `SenseVoiceFullParams::to_c_struct(&self)`, line for line:
`CString::new` fails exactly when the language bytes contain an interior
NUL, and `.expect("Failed to convert language to C string")` turns that
failure into a panic; the native `duration_ms` field is assigned
`self.offset_ms` in the source (line 154), and that assignment is
reproduced here unchanged; `c_language` is a local of the function and
only the C struct is returned, so the `CString` buffer is dropped when
the function returns, which the final `dropId` records. -/
def SenseVoiceFullParams.to_c_struct (p : SenseVoiceFullParams)
    (s : AllocState) : RustOutcome (CFullParams × AllocState) :=
  if p.language.contains 0 then
    .panicked "Failed to convert language to C string"
  else
    let (c_language, s1) := s.alloc
    let c_struct : CFullParams :=
      { strategy := p.strategy.toU32
        n_threads := p.n_threads
        language := c_language
        n_max_text_ctx := p.n_max_text_ctx
        offset_ms := p.offset_ms
        duration_ms := p.offset_ms
        no_timestamps := p.no_timestamps
        single_segment := p.single_segment
        print_progress := p.print_progress
        print_timestamps := p.print_timestamps
        debug_mode := p.debug_mode
        audio_ctx := p.audio_ctx
        greedy := { best_of := p.greedy.best_of }
        beam_search := { beam_size := p.beam_search.beam_size }
        progress_callback := none
        progress_callback_user_data := none }
    .value (c_struct, s1.dropId c_language)

/-- `enum SenseVoiceError`, with the variants the binding constructs or
converts into: `From<NulError>` (used by the `?` on `CString::new` for
the model path), `InitError`, `NoSamples`,
`UnableToCalculateSpectrogram`, `FailedToEncode`, `FailedToDecode`,
`GenericError(c_int)` and `NullPointer`. -/
inductive SenseVoiceError
  | NulError
  | InitError
  | NoSamples
  | UnableToCalculateSpectrogram
  | FailedToEncode
  | FailedToDecode
  | GenericError (code : Int)
  | NullPointer
deriving DecidableEq

/-- The return-code mapping at the tail of `full_parallel`
(lines 313 to 323), as the exact if-chain of the source. -/
def mapNativeRet (ret : Int) : Except SenseVoiceError Int :=
  if ret = -1 then .error .UnableToCalculateSpectrogram
  else if ret = 7 then .error .FailedToEncode
  else if ret = 8 then .error .FailedToDecode
  else if ret = 0 then .ok ret
  else .error (.GenericError ret)

/-- What an embedded invocation records about its boundary crossings:
how many calls into native code were made, and whether the marshalled
language pointer referred to a live `CString` buffer at the moment the
native call ran (`false` when no native call was made). -/
structure InvokeTrace where
  nativeCalls : Nat
  langLiveDuringNativeCall : Bool
deriving DecidableEq

/-- `full_parallel(ctx, params, data)`.  The integer the native
`sense_voice_full_parallel` would return when reached is passed in as
`nativeRet`; the guard, the marshalling through `to_c_struct` (with its
possible panic), the single native crossing and the return-code mapping
follow the source.  The trace records the native crossings and the
liveness of the borrowed language pointer at the crossing. -/
def full_parallel (nativeRet : Int) (params : SenseVoiceFullParams)
    (data : List Float) (s : AllocState) :
    RustOutcome (Except SenseVoiceError Int × InvokeTrace) :=
  if data.isEmpty then
    .value (.error .NoSamples,
      { nativeCalls := 0, langLiveDuringNativeCall := false })
  else
    match params.to_c_struct s with
    | .panicked msg => .panicked msg
    | .value (c_struct, s1) =>
      let trace : InvokeTrace :=
        { nativeCalls := 1
          langLiveDuringNativeCall := s1.live.contains c_struct.language }
      .value (mapNativeRet nativeRet, trace)

/-- `get_speech_prob(ctx, data)`.  The `f32` the native
`sense_voice_get_speech_prob` would return when reached is passed in as
`nativeProb`; the returned flag records whether native code was reached. -/
def get_speech_prob (nativeProb : Float) (data : List Float) : Float × Bool :=
  if data.isEmpty then (-1.0, false)
  else (nativeProb, true)

/-- The native calls performed when a `SenseVoiceContext` value is
dropped.  The source declares no `Drop` impl for `SenseVoiceContext`,
and its only field is a raw pointer, which has no drop glue, so
dropping the wrapper performs no native call at all. -/
def senseVoiceContextDropNativeCalls : List String := []

/-- The traits derived on `SenseVoiceContext` in the source
(`#[derive(Debug)]`, line 63); no other impl of `Clone` or `Copy` for
the type appears anywhere in the crate. -/
def senseVoiceContextDerivedTraits : List String := ["Debug"]

/-- Whether a Rust computation ended in a panic rather than a value. -/
def RustOutcome.isPanic {α : Type} : RustOutcome α → Bool
  | .panicked _ => true
  | .value _ => false

/-- A Call Configuration with distinct offset and duration values, built
through the public builder: offset 11 ms, duration 22 ms. -/
def c1FailingParams : SenseVoiceFullParams :=
  (((SenseVoiceFullParamsBuilder.new .SamplingGreedy (some 8)).offset_ms 11).duration_ms
    22).build

/-- C1: marshalling is claimed to set each native field from the
corresponding configuration field, the native duration field from
`duration_ms` in particular.  At a configuration with `offset_ms = 11`
and `duration_ms = 22`, `to_c_struct` produces a native struct whose
`duration_ms` field is 11 — the configuration's `offset_ms`, not its
`duration_ms`. -/
theorem C1_native_duration_field_gets_offset :
    c1FailingParams.offset_ms = 11 ∧ c1FailingParams.duration_ms = 22 ∧
    ∃ c s, c1FailingParams.to_c_struct AllocState.initState = .value (c, s) ∧
      c.offset_ms = 11 ∧ c.duration_ms = 11 ∧ c.duration_ms ≠ c1FailingParams.duration_ms :=
  ⟨rfl, rfl, _, _, rfl, rfl, rfl, by decide⟩

/-- C2: the encoded copy of the language string is claimed to stay alive
for the whole native call.  At a default greedy configuration invoked on
a one-sample buffer, the native call runs (`nativeCalls = 1`) while the
`CString` buffer behind the marshalled language pointer is no longer a
live allocation (`langLiveDuringNativeCall = false`): `to_c_struct`
drops the `CString` before returning, so the native engine reads a
dangling pointer. -/
theorem C2_language_buffer_dead_during_native_call :
    full_parallel 0 (SenseVoiceFullParams.default_params .SamplingGreedy (some 8)) [0.0]
        AllocState.initState =
      .value (.ok 0, { nativeCalls := 1, langLiveDuringNativeCall := false }) := rfl

/-- C3 counterexample: dropping the wrapper is claimed to invoke the
native release exactly once, but the drop of a `SenseVoiceContext`
performs no native call at all (no `Drop` impl exists in the source). -/
theorem C3_counterexample_release_not_once :
    ¬ senseVoiceContextDropNativeCalls.length = 1 := by decide

/-- C3 (amended): dropping the wrapper performs zero native calls — the
handle is leaked, never released and never double-released — and the
wrapper admits no cloning path: neither `Clone` nor `Copy` is among its
derived traits. -/
theorem C3_drop_releases_zero_times_and_no_clone :
    senseVoiceContextDropNativeCalls = [] ∧
    senseVoiceContextDerivedTraits.contains "Clone" = false ∧
    senseVoiceContextDerivedTraits.contains "Copy" = false := by decide

/-- C4: whenever the native invocation is reached (non-empty buffer,
NUL-free language), `full_parallel` maps the returned integer by the
exact lookup: -1 to the spectrogram failure, 7 to the encode failure,
8 to the decode failure, 0 to success, and every other integer to the
generic failure carrying that raw code. -/
theorem C4_return_code_mapping_exact (ret : Int) (p : SenseVoiceFullParams)
    (data : List Float) (s : AllocState)
    (hdata : data.isEmpty = false) (hlang : p.language.contains 0 = false) :
    (∃ t : InvokeTrace, full_parallel ret p data s = .value (mapNativeRet ret, t)) ∧
    mapNativeRet (-1) = .error .UnableToCalculateSpectrogram ∧
    mapNativeRet 7 = .error .FailedToEncode ∧
    mapNativeRet 8 = .error .FailedToDecode ∧
    mapNativeRet 0 = .ok 0 ∧
    (ret ≠ -1 → ret ≠ 7 → ret ≠ 8 → ret ≠ 0 →
      mapNativeRet ret = .error (.GenericError ret)) := by
  refine ⟨?_, rfl, rfl, rfl, rfl, ?_⟩
  · have hc : ∃ c s1, p.to_c_struct s = .value (c, s1) := by
      unfold SenseVoiceFullParams.to_c_struct
      rw [hlang, if_neg Bool.false_ne_true]
      exact ⟨_, _, rfl⟩
    obtain ⟨c, s1, hc⟩ := hc
    unfold full_parallel
    rw [hdata, if_neg Bool.false_ne_true, hc]
    exact ⟨_, rfl⟩
  · intro h1 h7 h8 h0
    unfold mapNativeRet
    simp [h1, h7, h8, h0]

/-- C4 witness: at the raw code 42 (outside the documented set), a
default greedy configuration and a one-sample buffer, the mapping
produces the generic failure carrying 42. -/
theorem C4_return_code_mapping_exact_witness :
    mapNativeRet 42 = .error (.GenericError 42) :=
  (C4_return_code_mapping_exact 42
      (SenseVoiceFullParams.default_params .SamplingGreedy (some 8)) [0.0]
      AllocState.initState rfl rfl).2.2.2.2.2
    (by decide) (by decide) (by decide) (by decide)

/-- C5: for every handle state, configuration and native return value,
invoking `full_parallel` on an empty sample buffer yields the no-samples
error and performs zero native calls. -/
theorem C5_empty_buffer_fails_fast_no_native_call (ret : Int)
    (p : SenseVoiceFullParams) (s : AllocState) :
    full_parallel ret p [] s =
      .value (.error .NoSamples,
        { nativeCalls := 0, langLiveDuringNativeCall := false }) := rfl

/-- A Call Configuration whose language bytes contain an interior NUL
(`[108, 0, 103]`), reachable through the public builder since a Rust
`&str` may contain interior NUL bytes. -/
def c6FailingParams : SenseVoiceFullParams :=
  ((SenseVoiceFullParamsBuilder.new .SamplingGreedy (some 8)).language [108, 0, 103]).build

/-- C6 counterexample: invoke is claimed to report the encoding error as
a structured, recoverable outcome when the language string contains an
embedded null byte.  At such a configuration, `full_parallel` instead
ends in a panic — `CString::new(..).expect(..)` aborts the calling
thread — so the outcome is a panic, not a structured error value. -/
theorem C6_counterexample_invoke_panics :
    full_parallel 0 c6FailingParams [0.0] AllocState.initState =
        .panicked "Failed to convert language to C string" ∧
    (full_parallel 0 c6FailingParams [0.0] AllocState.initState).isPanic = true :=
  ⟨rfl, rfl⟩

/-- C6 (amended): for every configuration whose language bytes contain
an embedded null byte and every non-empty sample buffer, `full_parallel`
panics with the message "Failed to convert language to C string" instead
of returning a structured encoding error. -/
theorem C6_interior_nul_language_panics (ret : Int) (p : SenseVoiceFullParams)
    (data : List Float) (s : AllocState)
    (hdata : data.isEmpty = false) (hlang : p.language.contains 0 = true) :
    full_parallel ret p data s =
      .panicked "Failed to convert language to C string" := by
  have hc : p.to_c_struct s = .panicked "Failed to convert language to C string" := by
    unfold SenseVoiceFullParams.to_c_struct
    rw [hlang, if_pos rfl]
  unfold full_parallel
  rw [hdata, if_neg Bool.false_ne_true, hc]

/-- C6 witness: the amended statement at the concrete NUL-containing
configuration and a one-sample buffer. -/
theorem C6_interior_nul_language_panics_witness :
    full_parallel 0 c6FailingParams [0.0] AllocState.initState =
      .panicked "Failed to convert language to C string" :=
  C6_interior_nul_language_panics 0 c6FailingParams [0.0] AllocState.initState rfl rfl

/-- C7: for every detected parallelism, a configuration built with the
greedy strategy and no overrides has best-of 5 and beam-width sentinel
-1, and one built with the beam-search strategy and no overrides has
beam-width 5 and best-of sentinel -1. -/
theorem C7_strategy_conditioned_defaults (par : Option Nat) :
    ((SenseVoiceFullParams.default_params .SamplingGreedy par).greedy.best_of = 5 ∧
      (SenseVoiceFullParams.default_params .SamplingGreedy par).beam_search.beam_size = -1) ∧
    ((SenseVoiceFullParams.default_params .SamplingBeamSearch par).beam_search.beam_size = 5 ∧
      (SenseVoiceFullParams.default_params .SamplingBeamSearch par).greedy.best_of = -1) :=
  ⟨⟨rfl, rfl⟩, ⟨rfl, rfl⟩⟩

/-- C8 counterexample: the default thread count is claimed to be
`min(4, p)` for every detected parallelism value `p`, but at
`p = 2 ^ 31` the `usize`-to-`i32` cast in the builder wraps to
`-2 ^ 31`, so the stored thread count is `-2 ^ 31`, not
`min(4, 2 ^ 31) = 4`. -/
theorem C8_counterexample_parallelism_wraps :
    (SenseVoiceFullParams.default_params .SamplingGreedy (some (2 ^ 31))).n_threads ≠
      min 4 ((2 : Int) ^ 31) := by decide

/-- C8 (amended): for every detected parallelism `p < 2 ^ 31` (all
machines the 32-bit cast represents faithfully) the default thread count
is `min(4, p)`, and in particular equals `p` when `p < 4`; and for every
detected parallelism whatsoever the default never exceeds 4. -/
theorem C8_thread_count_default (st : SenseVoiceDecodingStrategy) (p q : Nat)
    (hp : p < 2 ^ 31) :
    (SenseVoiceFullParams.default_params st (some p)).n_threads = min 4 (p : Int) ∧
    ((p : Int) < 4 → (SenseVoiceFullParams.default_params st (some p)).n_threads = (p : Int)) ∧
    (SenseVoiceFullParams.default_params st (some q)).n_threads ≤ 4 := by
  have hcast : usizeToI32 p = (p : Int) := by
    unfold usizeToI32
    have hm : p % 2 ^ 32 = p := Nat.mod_eq_of_lt (lt_trans hp (by norm_num))
    rw [hm, if_pos hp]
  have hp1 : (SenseVoiceFullParams.default_params st (some p)).n_threads =
      min 4 (usizeToI32 p) := by
    cases st <;> rfl
  have hq1 : (SenseVoiceFullParams.default_params st (some q)).n_threads =
      min 4 (usizeToI32 q) := by
    cases st <;> rfl
  refine ⟨by rw [hp1, hcast], ?_, by rw [hq1]; exact min_le_left 4 (usizeToI32 q)⟩
  intro hlt
  rw [hp1, hcast]
  exact min_eq_right hlt.le

/-- C8 witness: the amended statement at detected parallelism 2 (with 4
for the unrestricted bound): the default thread count is
`min(4, 2) = 2`. -/
theorem C8_thread_count_default_witness :
    (SenseVoiceFullParams.default_params .SamplingGreedy (some 2)).n_threads =
      min 4 ((2 : Nat) : Int) :=
  (C8_thread_count_default .SamplingGreedy 2 4 (by norm_num)).1

/-- C9: for every value the native probe would return,
`get_speech_prob` on an empty sample buffer returns exactly the sentinel
-1.0 as a plain float (not a structured error) and reaches no native
code. -/
theorem C9_speech_prob_empty_buffer_sentinel (nativeProb : Float) :
    get_speech_prob nativeProb [] = (-1.0, false) := rfl

/-- C10: for either strategy and every detected parallelism, a
configuration built with no overrides has `n_max_text_ctx` 16384,
`offset_ms` 0, `duration_ms` 0, `audio_ctx` 0, `no_timestamps` false,
`debug_mode` false, and `single_segment`, `print_progress`,
`print_timestamps` all true. -/
theorem C10_unstated_builder_defaults (st : SenseVoiceDecodingStrategy)
    (par : Option Nat) :
    (SenseVoiceFullParams.default_params st par).n_max_text_ctx = 16384 ∧
    (SenseVoiceFullParams.default_params st par).offset_ms = 0 ∧
    (SenseVoiceFullParams.default_params st par).duration_ms = 0 ∧
    (SenseVoiceFullParams.default_params st par).audio_ctx = 0 ∧
    (SenseVoiceFullParams.default_params st par).no_timestamps = false ∧
    (SenseVoiceFullParams.default_params st par).debug_mode = false ∧
    (SenseVoiceFullParams.default_params st par).single_segment = true ∧
    (SenseVoiceFullParams.default_params st par).print_progress = true ∧
    (SenseVoiceFullParams.default_params st par).print_timestamps = true := by
  cases st <;> exact ⟨rfl, rfl, rfl, rfl, rfl, rfl, rfl, rfl, rfl⟩
